import Mathlib

/-!
Verification of the meal nutrient aggregation core of the Food-Advisor
repository.

The embedding follows the calculator page (src/unnamed/part_007): the
helper getNutrient, the input validation, the candidate selection, the
per-item scaling and rounding, the totals accumulation, and the
localStorage history handling (saveCalculationToHistory).  JavaScript
numbers are modelled as exact rationals; JavaScript Math.round is the
floor of x + 1/2 (ties go toward positive infinity).  The external
fetch of /api/foods/search is modelled as an oracle returning either a
candidate list (the parsed body, with data.foods defaulting to the
empty list) or a thrown error (network failure or unparsable body).
-/

set_option allowUnsafeReducibility true in
attribute [semireducible] Rat.add Rat.mul Rat.inv

/-! ## JavaScript primitives -/

/-- Model of JavaScript Math.round: nearest integer, ties toward plus
infinity, so Math.round x = floor (x + 1/2). -/
def jsRound (x : ℚ) : ℤ := Int.floor (x + 1/2)

/-- Rounding to one decimal place as done throughout the calculator:
Math.round (x * 10) / 10 (part_007 lines 284-289 and 334-339). -/
def round1 (x : ℚ) : ℚ := ((jsRound (x * 10) : ℤ) : ℚ) / 10

/-- Whitespace test used by the String.prototype.trim model. -/
def isWsChar (c : Char) : Bool := c.isWhitespace

/-- Model of JavaScript String.prototype.trim: strip leading and
trailing whitespace. -/
def jsTrim (s : String) : String :=
  ⟨((s.data.dropWhile isWsChar).reverse.dropWhile isWsChar).reverse⟩

/-- Model of JavaScript String.prototype.toLowerCase (ASCII fragment,
which covers the nutrient names and food descriptions involved). -/
def jsToLower (s : String) : String := ⟨s.data.map Char.toLower⟩

/-- Tests whether the second list is an initial segment of the first. -/
def leadsWith : List Char → List Char → Bool
  | _, [] => true
  | [], _ :: _ => false
  | a :: as, b :: bs => a == b && leadsWith as bs

/-- Tests whether pat occurs as a contiguous sublist of the second
argument; used to model String.prototype.includes. -/
def hasSubList (pat : List Char) : List Char → Bool
  | [] => leadsWith [] pat
  | c :: rest => leadsWith (c :: rest) pat || hasSubList pat rest

/-- Model of JavaScript s.includes(pat). -/
def strIncludes (s pat : String) : Bool := hasSubList pat.data s.data

/-- Collects a maximal run of leading decimal digits, returning their
values and the remaining characters. -/
def takeDigits : List Char → List ℕ × List Char
  | [] => ([], [])
  | c :: cs =>
    if c.isDigit then
      let (ds, rest) := takeDigits cs
      ((c.toNat - 48) :: ds, rest)
    else ([], c :: cs)

/-- Reads a digit list as a natural number, most significant first. -/
def digitsToNat (ds : List ℕ) : ℕ := ds.foldl (fun a d => a * 10 + d) 0

/-- Reads an optional exponent suffix sign and digits; an empty digit
run contributes exponent zero, as the longest valid numeric prefix then
stops before the letter e. -/
def readExponent (cs : List Char) : ℤ :=
  let (esign, r) : ℤ × List Char :=
    match cs with
    | '-' :: r => (-1, r)
    | '+' :: r => (1, r)
    | r => (1, r)
  let (eds, _) := takeDigits r
  if eds.isEmpty then 0 else esign * (digitsToNat eds : ℤ)

/-- Model of JavaScript parseFloat: skip leading whitespace, read an
optional sign, integer digits, an optional fraction, and an optional
exponent; none models NaN (no digits at all).  Infinity literals are
outside the model. -/
def parseFloat (s : String) : Option ℚ :=
  let cs := s.data.dropWhile isWsChar
  let (sign, cs1) : ℚ × List Char :=
    match cs with
    | '-' :: r => (-1, r)
    | '+' :: r => (1, r)
    | r => (1, r)
  let (ints, cs2) := takeDigits cs1
  let (fracs, cs3) : List ℕ × List Char :=
    match cs2 with
    | '.' :: r => takeDigits r
    | r => ([], r)
  if ints.isEmpty && fracs.isEmpty then none
  else
    let mantissa : ℚ := (digitsToNat ints : ℚ) + (digitsToNat fracs : ℚ) / (10 : ℚ) ^ fracs.length
    let expo : ℤ :=
      match cs3 with
      | 'e' :: r => readExponent r
      | 'E' :: r => readExponent r
      | _ => 0
    some (sign * mantissa * (10 : ℚ) ^ expo)

/-! ## Data model (part_007 lines 7-58) -/

/-- One nutrient record of the USDA response. -/
structure FoodNutrient where
  nutrientName : String
  value : ℚ
  deriving DecidableEq

/-- One candidate food of the USDA response, as used by the
calculator: a description, an optional brand, and an optional nutrient
list. -/
structure USDAFood where
  description : String
  brandName : Option String := none
  foodNutrients : Option (List FoodNutrient) := none
  deriving DecidableEq

/-- The six tracked nutrients (part_007 lines 28-35). -/
@[ext]
structure NutrientValues where
  calories : ℚ
  protein : ℚ
  fat : ℚ
  carbs : ℚ
  sugar : ℚ
  fiber : ℚ
  deriving DecidableEq

/-- One meal line item as entered by the user; the gram amount is the
raw text of the input field (part_007 lines 20-24). -/
structure MealItem where
  id : ℤ
  foodName : String
  amountGrams : String
  deriving DecidableEq

/-- One calculated food item (part_007 lines 38-46). -/
structure CalculatedItem where
  foodName : String
  amountGrams : ℚ
  nutrientsPer100g : NutrientValues
  computedNutrients : NutrientValues
  deriving DecidableEq

/-- One item of a stored calculator history entry (part_007 lines
51-55). -/
structure HistoryFoodRecord where
  foodName : String
  grams : ℚ
  nutrients : NutrientValues
  deriving DecidableEq

/-- One calculator history entry stored in localStorage (part_007
lines 50-58). -/
structure CalculatorHistoryItem where
  items : List HistoryFoodRecord
  totalNutrients : NutrientValues
  timestamp : String
  deriving DecidableEq

/-- Outcome of one fetch of /api/foods/search for one food name:
success carries the candidate list extracted from the parsed body
(data.foods, defaulting to the empty list when absent, which is what a
non-success status with a JSON error body produces); failure models a
thrown fetch or body-parse error. -/
inductive LookupOutcome where
  | success (foods : List USDAFood)
  | failure
  deriving DecidableEq

/-- The two failure alerts of handleCalculateNutrients: the empty
valid-item list (part_007 line 202) and the outer catch (line 350). -/
inductive CalcError where
  | invalidInput
  | calculationError
  deriving DecidableEq

/-- The observable result of a successful calculation: the itemized
list and the rounded totals (part_007 lines 342-343). -/
structure CalcResult where
  results : List CalculatedItem
  totalNutrients : NutrientValues
  deriving DecidableEq

/-! ## Nutrient resolution (part_007 lines 60-67 and 231-273) -/

/-- Helper of part_007 lines 63-67: scan the nutrient list of a food
for the entry with the given exact name; none when the list is absent
or no entry matches. -/
def getNutrient (food : USDAFood) (name : String) : Option ℚ :=
  match food.foodNutrients with
  | none => none
  | some ns =>
    match ns.find? (fun item => item.nutrientName == name) with
    | none => none
    | some n => some n.value

/-- The per-100g nutrient record built at part_007 lines 247-273: each
of the six fields is getNutrient with its exact USDA name, with the
JavaScript fallback (value or zero). -/
def extractPer100g (food : USDAFood) : NutrientValues :=
  { calories := (getNutrient food "Energy").getD 0
    protein := (getNutrient food "Protein").getD 0
    fat := (getNutrient food "Total lipid (fat)").getD 0
    carbs := (getNutrient food "Carbohydrate, by difference").getD 0
    sugar := (getNutrient food "Total Sugars").getD 0
    fiber := (getNutrient food "Fiber, total dietary").getD 0 }

/-- The candidate filter of part_007 lines 235-237: the description is
truthy (non-empty) and its lowercase form includes the lowercased
query. -/
def descContains (f : USDAFood) (lowerQ : String) : Bool :=
  f.description != "" && strIncludes (jsToLower f.description) lowerQ

/-- The candidate selection of part_007 lines 233-239: first candidate
whose description matches, else the first candidate at all, else
none. -/
def selectFood (query : String) (foods : List USDAFood) : Option USDAFood :=
  let lowerQ := jsToLower query
  let filtered := foods.filter (fun f => descContains f lowerQ)
  match filtered with
  | f :: _ => some f
  | [] =>
    match foods with
    | f :: _ => some f
    | [] => none

/-! ## Per-item scaling and the aggregation loop (part_007 lines 186-354) -/

/-- The validity filter of part_007 lines 197-199: the trimmed food
name is truthy, the trimmed gram text is truthy, and parseFloat of the
gram text is not NaN. -/
def isValidItem (item : MealItem) : Bool :=
  jsTrim item.foodName != "" && jsTrim item.amountGrams != "" &&
    (parseFloat item.amountGrams).isSome

/-- The all-zero nutrient record (part_007 lines 215-222 and
311-318). -/
def zeroNutrients : NutrientValues :=
  { calories := 0, protein := 0, fat := 0, carbs := 0, sugar := 0, fiber := 0 }

/-- Fieldwise addition, as performed by the accumulation at part_007
lines 296-301. -/
def addNutrients (a b : NutrientValues) : NutrientValues :=
  { calories := a.calories + b.calories
    protein := a.protein + b.protein
    fat := a.fat + b.fat
    carbs := a.carbs + b.carbs
    sugar := a.sugar + b.sugar
    fiber := a.fiber + b.fiber }

/-- Fieldwise rounding to one decimal, as performed on the final
totals at part_007 lines 333-340. -/
def roundNutrients (a : NutrientValues) : NutrientValues :=
  { calories := round1 a.calories
    protein := round1 a.protein
    fat := round1 a.fat
    carbs := round1 a.carbs
    sugar := round1 a.sugar
    fiber := round1 a.fiber }

/-- The per-item conversion of part_007 lines 280-290: each per-100g
value times grams/100, rounded to one decimal. -/
def computedFrom (per100g : NutrientValues) (amountGrams : ℚ) : NutrientValues :=
  let conversionFactor := amountGrams / 100
  { calories := round1 (per100g.calories * conversionFactor)
    protein := round1 (per100g.protein * conversionFactor)
    fat := round1 (per100g.fat * conversionFactor)
    carbs := round1 (per100g.carbs * conversionFactor)
    sugar := round1 (per100g.sugar * conversionFactor)
    fiber := round1 (per100g.fiber * conversionFactor) }

/-- The entry pushed for a matched food (part_007 lines 303-308),
using the resolved description when truthy. -/
def matchedEntry (item : MealItem) (food : USDAFood) : CalculatedItem :=
  let per100g := extractPer100g food
  let amountGrams := (parseFloat item.amountGrams).getD 0
  { foodName := if food.description != "" then food.description else item.foodName
    amountGrams := amountGrams
    nutrientsPer100g := per100g
    computedNutrients := computedFrom per100g amountGrams }

/-- The entry pushed when no candidate was usable (part_007 lines
309-326): name suffixed, grams as requested, all nutrients zero. -/
def notFoundEntry (item : MealItem) : CalculatedItem :=
  { foodName := item.foodName ++ " (not found)"
    amountGrams := (parseFloat item.amountGrams).getD 0
    nutrientsPer100g := zeroNutrients
    computedNutrients := zeroNutrients }

/-- The entry one valid item produces when its lookup does not throw;
the failure branch is never reached on a successful batch and returns
the not-found shape as a dummy. -/
def resolveOkItem (lookup : String → LookupOutcome) (item : MealItem) : CalculatedItem :=
  match lookup item.foodName with
  | .failure => notFoundEntry item
  | .success foods =>
    match selectFood item.foodName foods with
    | some food => matchedEntry item food
    | none => notFoundEntry item

/-- The computed nutrient record one valid item contributes. -/
def itemComputed (lookup : String → LookupOutcome) (item : MealItem) : NutrientValues :=
  (resolveOkItem lookup item).computedNutrients

/-- Tests whether a lookup completes but selects no candidate, the
not-found case of part_007 line 309. -/
def itemUnmatched (lookup : String → LookupOutcome) (item : MealItem) : Bool :=
  match lookup item.foodName with
  | .failure => false
  | .success foods => (selectFood item.foodName foods).isNone

/-- The sequential for-loop of part_007 lines 225-327: resolve each
item in order, push its entry, and add the computed nutrients of
matched items to the running totals; a thrown fetch or parse error
escapes to the outer catch, modelled as the error case. -/
def calcLoop (lookup : String → LookupOutcome) :
    List MealItem → NutrientValues → Except Unit (List CalculatedItem × NutrientValues)
  | [], nutrientTotals => .ok ([], nutrientTotals)
  | item :: rest, nutrientTotals =>
    match lookup item.foodName with
    | .failure => .error ()
    | .success foods =>
      match selectFood item.foodName foods with
      | some food =>
        let entry := matchedEntry item food
        match calcLoop lookup rest (addNutrients nutrientTotals entry.computedNutrients) with
        | .error e => .error e
        | .ok (res, tot) => .ok (entry :: res, tot)
      | none =>
        match calcLoop lookup rest nutrientTotals with
        | .error e => .error e
        | .ok (res, tot) => .ok (notFoundEntry item :: res, tot)

/-- The aggregation of part_007 lines 187-354, after the login gate:
filter the items, fail with invalidInput when nothing is left, run the
loop, and round the accumulated totals; any exception inside the loop
surfaces as calculationError via the outer catch. -/
def handleCalculateNutrients (lookup : String → LookupOutcome)
    (mealItems : List MealItem) : Except CalcError CalcResult :=
  let validItems := mealItems.filter isValidItem
  if validItems.isEmpty then .error .invalidInput
  else
    match calcLoop lookup validItems zeroNutrients with
    | .error _ => .error .calculationError
    | .ok (results, nutrientTotals) =>
      .ok { results := results, totalNutrients := roundNutrients nutrientTotals }

/-! ## History persistence (part_007 lines 144-184) -/

/-- The history entry built at part_007 lines 154-162; the timestamp
string is supplied by the caller since it reads the wall clock. -/
def mkHistoryEntry (timestamp : String) (results : List CalculatedItem)
    (totals : NutrientValues) : CalculatorHistoryItem :=
  { items := results.map (fun item =>
      { foodName := item.foodName
        grams := item.amountGrams
        nutrients := item.computedNutrients })
    totalNutrients := totals
    timestamp := timestamp }

/-- The save of part_007 lines 144-184: nothing is written when not
logged in; otherwise the stored text (none models a missing key) is
parsed by the JSON oracle, a parse error or falsy text leaves the old
history empty, the new entry is prepended, and the list is truncated
to 20; the returned value is the list written back. -/
def saveCalculationToHistory (isLoggedIn : Bool)
    (parseJson : String → Option (List CalculatorHistoryItem))
    (timestamp : String) (results : List CalculatedItem) (totals : NutrientValues)
    (existingHistory : Option String) : Option (List CalculatorHistoryItem) :=
  if !isLoggedIn then none
  else
    let historyEntry := mkHistoryEntry timestamp results totals
    let history : List CalculatorHistoryItem :=
      match existingHistory with
      | none => []
      | some s => if s == "" then [] else (parseJson s).getD []
    some ((historyEntry :: history).take 20)

/-! ## Definitions taken from the wording of the specification, for
the refinement comparisons -/

/-- Rounding convention as worded in the specification: round half-up
at the tenths place. -/
def specRound1 (x : ℚ) : ℚ := ((Int.floor (x * 10 + 1/2) : ℤ) : ℚ) / 10

/-- Scaling formula as worded in the specification: computed equals
round (per100gValue * (gramsRequested / 100), 1 decimal place). -/
def specScale (v g : ℚ) : ℚ := specRound1 (v * g / 100)

/-- Nutrient extraction as worded in the specification: scan the
candidate nutrient list for an exact name match; a missing nutrient or
an absent list yields 0, not an error. -/
def specNutrientLookup (food : USDAFood) (name : String) : ℚ :=
  (((food.foodNutrients).getD []).find? (fun item => item.nutrientName == name)).elim
    0 (fun n => n.value)

/-- Fieldwise sum of a list of nutrient records, the value the running
accumulation of the loop produces. -/
def sumNutrients (l : List NutrientValues) : NutrientValues :=
  l.foldr addNutrients zeroNutrients

deriving instance DecidableEq for Except

/-! ## Concrete data used to exercise the definitions -/

/-- Sample candidate for the query apple. -/
def appleFood : USDAFood :=
  { description := "Apple juice", foodNutrients := some [⟨"Energy", 52⟩] }

/-- Sample candidate for the query milk. -/
def milkFood : USDAFood :=
  { description := "Milk, whole", foodNutrients := some [⟨"Energy", 42⟩, ⟨"Protein", 7/2⟩] }

/-- Sample lookup oracle: apple and milk each return one candidate,
every other query returns an empty candidate list. -/
def demoLookup : String → LookupOutcome := fun q =>
  if q == "apple" then .success [appleFood]
  else if q == "milk" then .success [milkFood]
  else .success []

/-- Sample batch: 150 g of apple and 200 g of milk. -/
def demoItems : List MealItem := [⟨1, "apple", "150"⟩, ⟨2, "milk", "200"⟩]

/-- Same batch in the opposite order. -/
def demoItemsSwapped : List MealItem := [⟨2, "milk", "200"⟩, ⟨1, "apple", "150"⟩]

/-- Expected calculated entry for 150 g of apple: 52 kcal per 100 g
scaled by 1.5 gives 78 kcal. -/
def demoApple : CalculatedItem :=
  { foodName := "Apple juice", amountGrams := 150,
    nutrientsPer100g := ⟨52, 0, 0, 0, 0, 0⟩, computedNutrients := ⟨78, 0, 0, 0, 0, 0⟩ }

/-- Expected calculated entry for 200 g of milk: 42 kcal and 3.5 g of
protein per 100 g scaled by 2 give 84 kcal and 7 g. -/
def demoMilk : CalculatedItem :=
  { foodName := "Milk, whole", amountGrams := 200,
    nutrientsPer100g := ⟨42, 7/2, 0, 0, 0, 0⟩, computedNutrients := ⟨84, 7, 0, 0, 0, 0⟩ }

/-- Expected result of the sample batch. -/
def demoResult : CalcResult :=
  { results := [demoApple, demoMilk], totalNutrients := ⟨162, 7, 0, 0, 0, 0⟩ }

/-- Expected result of the swapped sample batch. -/
def demoResultSwapped : CalcResult :=
  { results := [demoMilk, demoApple], totalNutrients := ⟨162, 7, 0, 0, 0, 0⟩ }

/-- Sample batch with an unmatched middle item. -/
def demoItemsNF : List MealItem :=
  [⟨1, "apple", "150"⟩, ⟨2, "zzz", "50"⟩, ⟨3, "milk", "200"⟩]

/-- Expected zero-valued entry for the unmatched middle item. -/
def demoZzz : CalculatedItem :=
  { foodName := "zzz (not found)", amountGrams := 50,
    nutrientsPer100g := zeroNutrients, computedNutrients := zeroNutrients }

/-- Expected result of the batch with the unmatched middle item: three
entries, totals from the two matched items only. -/
def demoResultNF : CalcResult :=
  { results := [demoApple, demoZzz, demoMilk], totalNutrients := ⟨162, 7, 0, 0, 0, 0⟩ }

/-- Oracle whose every reply is an empty candidate list. -/
def emptyLookup : String → LookupOutcome := fun _ => .success []

/-- The batch of property P4: a blank name and a negative gram
amount. -/
def p4Items : List MealItem := [⟨1, "", "100"⟩, ⟨2, "milk", "-5"⟩]

/-- Oracle that throws on milk and answers apple with one candidate. -/
def failingLookup : String → LookupOutcome := fun q =>
  if q == "milk" then .failure else .success [appleFood]

/-- Batch whose second item hits the throwing lookup. -/
def failingItems : List MealItem := [⟨1, "apple", "150"⟩, ⟨2, "milk", "100"⟩]

/-- Sample stored history entry, numbered through its timestamp. -/
def demoHistEntry (n : ℕ) : CalculatorHistoryItem :=
  { items := [], totalNutrients := zeroNutrients, timestamp := toString n }

/-- A stored history already at the cap of 20 entries. -/
def demoHist20 : List CalculatorHistoryItem := (List.range 20).map demoHistEntry

/-- JSON-parse oracle: the text good parses to the 20-entry history,
anything else fails to parse. -/
def demoParse : String → Option (List CalculatorHistoryItem) := fun t =>
  if t == "good" then some demoHist20 else none

/-! ## Basic lemmas -/

theorem round1_eq_specRound1 (x : ℚ) : round1 x = specRound1 x := rfl

theorem jsRound_zero : jsRound 0 = 0 := by
  have : Int.floor ((1 : ℚ)/2) = 0 := by
    rw [Int.floor_eq_iff]
    norm_num
  simpa [jsRound] using this

theorem round1_zero : round1 0 = 0 := by
  simp [round1, jsRound_zero]

theorem specScale_eq_round1 (v g : ℚ) : specScale v g = round1 (v * (g / 100)) := by
  rw [specScale, ← round1_eq_specRound1, mul_div_assoc]

theorem addNutrients_zero_right (a : NutrientValues) :
    addNutrients a zeroNutrients = a := by
  simp [addNutrients, zeroNutrients]

theorem addNutrients_zero_left (a : NutrientValues) :
    addNutrients zeroNutrients a = a := by
  simp [addNutrients, zeroNutrients]

theorem addNutrients_assoc (a b c : NutrientValues) :
    addNutrients (addNutrients a b) c = addNutrients a (addNutrients b c) := by
  simp [addNutrients, add_assoc]

theorem computedFrom_zero (g : ℚ) : computedFrom zeroNutrients g = zeroNutrients := by
  simp [computedFrom, zeroNutrients, round1_zero]

theorem sumNutrients_calories (l : List NutrientValues) :
    (sumNutrients l).calories = (l.map NutrientValues.calories).sum := by
  induction l with
  | nil => simp [sumNutrients, zeroNutrients]
  | cons a t ih => simp [sumNutrients, addNutrients] at ih ⊢; simp [ih]

theorem sumNutrients_protein (l : List NutrientValues) :
    (sumNutrients l).protein = (l.map NutrientValues.protein).sum := by
  induction l with
  | nil => simp [sumNutrients, zeroNutrients]
  | cons a t ih => simp [sumNutrients, addNutrients] at ih ⊢; simp [ih]

theorem sumNutrients_fat (l : List NutrientValues) :
    (sumNutrients l).fat = (l.map NutrientValues.fat).sum := by
  induction l with
  | nil => simp [sumNutrients, zeroNutrients]
  | cons a t ih => simp [sumNutrients, addNutrients] at ih ⊢; simp [ih]

theorem sumNutrients_carbs (l : List NutrientValues) :
    (sumNutrients l).carbs = (l.map NutrientValues.carbs).sum := by
  induction l with
  | nil => simp [sumNutrients, zeroNutrients]
  | cons a t ih => simp [sumNutrients, addNutrients] at ih ⊢; simp [ih]

theorem sumNutrients_sugar (l : List NutrientValues) :
    (sumNutrients l).sugar = (l.map NutrientValues.sugar).sum := by
  induction l with
  | nil => simp [sumNutrients, zeroNutrients]
  | cons a t ih => simp [sumNutrients, addNutrients] at ih ⊢; simp [ih]

theorem sumNutrients_fiber (l : List NutrientValues) :
    (sumNutrients l).fiber = (l.map NutrientValues.fiber).sum := by
  induction l with
  | nil => simp [sumNutrients, zeroNutrients]
  | cons a t ih => simp [sumNutrients, addNutrients] at ih ⊢; simp [ih]

/-! ## Loop characterization lemmas -/

theorem resolveOkItem_computed (lookup : String → LookupOutcome) (item : MealItem) :
    (resolveOkItem lookup item).computedNutrients =
      computedFrom (resolveOkItem lookup item).nutrientsPer100g
        (resolveOkItem lookup item).amountGrams := by
  rw [resolveOkItem]
  cases hl : lookup item.foodName with
  | failure => simp [notFoundEntry, computedFrom_zero]
  | success foods =>
    cases hs : selectFood item.foodName foods with
    | none => simp [hs, notFoundEntry, computedFrom_zero]
    | some food => simp [hs, matchedEntry]

theorem calcLoop_ok (lookup : String → LookupOutcome) (items : List MealItem)
    (hno : ∀ i ∈ items, lookup i.foodName ≠ LookupOutcome.failure) (acc : NutrientValues) :
    calcLoop lookup items acc =
      .ok (items.map (resolveOkItem lookup),
        addNutrients acc (sumNutrients (items.map (itemComputed lookup)))) := by
  induction items generalizing acc with
  | nil => simp [calcLoop, sumNutrients, addNutrients_zero_right]
  | cons item rest ih =>
    have hhead : lookup item.foodName ≠ LookupOutcome.failure :=
      hno item (List.mem_cons_self item rest)
    have htail : ∀ i ∈ rest, lookup i.foodName ≠ LookupOutcome.failure :=
      fun i hi => hno i (List.mem_cons_of_mem item hi)
    cases hl : lookup item.foodName with
    | failure => exact absurd hl hhead
    | success foods =>
      cases hs : selectFood item.foodName foods with
      | some food =>
        have hr : resolveOkItem lookup item = matchedEntry item food := by
          simp [resolveOkItem, hl, hs]
        simp only [calcLoop, hl, hs, ih htail]
        simp [hr, sumNutrients, itemComputed, addNutrients_assoc]
      | none =>
        have hr : resolveOkItem lookup item = notFoundEntry item := by
          simp [resolveOkItem, hl, hs]
        simp only [calcLoop, hl, hs, ih htail]
        simp [hr, sumNutrients, itemComputed, notFoundEntry, addNutrients_zero_left]

theorem calcLoop_err (lookup : String → LookupOutcome) (items : List MealItem)
    (hex : ∃ i ∈ items, lookup i.foodName = LookupOutcome.failure) (acc : NutrientValues) :
    calcLoop lookup items acc = .error () := by
  induction items generalizing acc with
  | nil => simp at hex
  | cons item rest ih =>
    cases hl : lookup item.foodName with
    | failure => simp [calcLoop, hl]
    | success foods =>
      have hrest : ∃ i ∈ rest, lookup i.foodName = LookupOutcome.failure := by
        rcases hex with ⟨i, hi, hf⟩
        rcases List.mem_cons.mp hi with rfl | hi2
        · exact absurd hf (by simp [hl])
        · exact ⟨i, hi2, hf⟩
      cases hs : selectFood item.foodName foods with
      | some food => simp [calcLoop, hl, hs, ih hrest]
      | none => simp [calcLoop, hl, hs, ih hrest]

theorem handle_ok_shape (lookup : String → LookupOutcome) (items : List MealItem)
    (r : CalcResult) (h : handleCalculateNutrients lookup items = .ok r) :
    r.results = (items.filter isValidItem).map (resolveOkItem lookup) ∧
      r.totalNutrients =
        roundNutrients (sumNutrients ((items.filter isValidItem).map (itemComputed lookup))) := by
  by_cases hv : (items.filter isValidItem).isEmpty
  · rw [handleCalculateNutrients] at h
    simp [hv] at h
  · by_cases hf : ∀ i ∈ items.filter isValidItem, lookup i.foodName ≠ LookupOutcome.failure
    · rw [handleCalculateNutrients] at h
      simp only [hv, Bool.false_eq_true, if_false,
        calcLoop_ok lookup (items.filter isValidItem) hf zeroNutrients] at h
      cases h
      simp [addNutrients_zero_left]
    · push_neg at hf
      rw [handleCalculateNutrients] at h
      simp only [hv, Bool.false_eq_true, if_false,
        calcLoop_err lookup (items.filter isValidItem) hf zeroNutrients] at h
      exact absurd h (by simp)

theorem map_eraseIdx {α β : Type} (f : α → β) (l : List α) (k : ℕ) :
    (l.eraseIdx k).map f = (l.map f).eraseIdx k := by
  induction l generalizing k with
  | nil => simp
  | cons a t ih =>
    cases k with
    | zero => simp [List.eraseIdx]
    | succ n => simp [List.eraseIdx, ih n]

theorem sum_eraseIdx_add (l : List ℚ) (k : ℕ) (hk : k < l.length) :
    l.sum = (l.eraseIdx k).sum + l.get ⟨k, hk⟩ := by
  induction l generalizing k with
  | nil => simp at hk
  | cons a t ih =>
    cases k with
    | zero => simp [List.eraseIdx, add_comm]
    | succ n =>
      have hn : n < t.length := by simpa using hk
      simp only [List.eraseIdx, List.sum_cons, List.get_cons_succ, ih n hn]
      ring

theorem find?_eq_head?_filter {α : Type} (p : α → Bool) (l : List α) :
    (l.filter p).head? = l.find? p := by
  induction l with
  | nil => rfl
  | cons a t ih =>
    by_cases h : p a = true <;> simp [List.filter_cons, List.find?_cons, h, ih]

theorem selectFood_eq_head_or (query : String) (foods : List USDAFood) :
    selectFood query foods =
      ((foods.filter (fun f => descContains f (jsToLower query))).head?).or foods.head? := by
  simp only [selectFood]
  cases hfil : foods.filter (fun f => descContains f (jsToLower query)) with
  | cons c cs => simp [Option.or]
  | nil =>
    cases foods with
    | nil => simp [Option.or]
    | cons f t => simp [Option.or]

theorem sumNutrients_perm (l1 l2 : List NutrientValues) (hp : l1.Perm l2) :
    sumNutrients l1 = sumNutrients l2 := by
  ext
  · rw [sumNutrients_calories, sumNutrients_calories]
    exact (hp.map NutrientValues.calories).sum_eq
  · rw [sumNutrients_protein, sumNutrients_protein]
    exact (hp.map NutrientValues.protein).sum_eq
  · rw [sumNutrients_fat, sumNutrients_fat]
    exact (hp.map NutrientValues.fat).sum_eq
  · rw [sumNutrients_carbs, sumNutrients_carbs]
    exact (hp.map NutrientValues.carbs).sum_eq
  · rw [sumNutrients_sugar, sumNutrients_sugar]
    exact (hp.map NutrientValues.sugar).sum_eq
  · rw [sumNutrients_fiber, sumNutrients_fiber]
    exact (hp.map NutrientValues.fiber).sum_eq

theorem handle_totals_field (lookup : String → LookupOutcome) (items : List MealItem)
    (r : CalcResult) (h : handleCalculateNutrients lookup items = .ok r)
    (proj : NutrientValues → ℚ)
    (hround : ∀ a, proj (roundNutrients a) = round1 (proj a))
    (hsum : ∀ l, proj (sumNutrients l) = (l.map proj).sum) :
    proj r.totalNutrients = round1 ((r.results.map (fun c => proj c.computedNutrients)).sum) := by
  obtain ⟨hres, htot⟩ := handle_ok_shape lookup items r h
  rw [htot, hround, hsum]
  congr 1
  rw [hres, List.map_map, List.map_map]
  rfl

/-! ## Claim C1 -/

/-- C1: for every item of the calculated output (in particular every
resolved one), each of the six computed per-serving values equals the
per-100g value scaled by grams/100 and rounded half-up at the tenths
place, the same convention for all six fields. -/
theorem spec_scaling_per_item (lookup : String → LookupOutcome) (items : List MealItem)
    (r : CalcResult) (h : handleCalculateNutrients lookup items = .ok r)
    (c : CalculatedItem) (hc : c ∈ r.results) :
    c.computedNutrients.calories = specScale c.nutrientsPer100g.calories c.amountGrams ∧
    c.computedNutrients.protein = specScale c.nutrientsPer100g.protein c.amountGrams ∧
    c.computedNutrients.fat = specScale c.nutrientsPer100g.fat c.amountGrams ∧
    c.computedNutrients.carbs = specScale c.nutrientsPer100g.carbs c.amountGrams ∧
    c.computedNutrients.sugar = specScale c.nutrientsPer100g.sugar c.amountGrams ∧
    c.computedNutrients.fiber = specScale c.nutrientsPer100g.fiber c.amountGrams := by
  have key : ∀ (v : NutrientValues) (g : ℚ),
      (computedFrom v g).calories = specScale v.calories g ∧
      (computedFrom v g).protein = specScale v.protein g ∧
      (computedFrom v g).fat = specScale v.fat g ∧
      (computedFrom v g).carbs = specScale v.carbs g ∧
      (computedFrom v g).sugar = specScale v.sugar g ∧
      (computedFrom v g).fiber = specScale v.fiber g := by
    intro v g
    refine ⟨?_, ?_, ?_, ?_, ?_, ?_⟩ <;> rw [specScale_eq_round1] <;> rfl
  obtain ⟨hres, _⟩ := handle_ok_shape lookup items r h
  rw [hres] at hc
  obtain ⟨i, _, rfl⟩ := List.mem_map.mp hc
  rw [resolveOkItem_computed lookup i]
  exact key _ _

/-- Witness for C1 at the sample batch: the apple entry satisfies the
scaling formula, in particular 52 kcal per 100 g at 150 g gives
78.0. -/
theorem spec_scaling_per_item_witness :
    demoApple.computedNutrients.calories = specScale demoApple.nutrientsPer100g.calories demoApple.amountGrams ∧
    demoApple.computedNutrients.protein = specScale demoApple.nutrientsPer100g.protein demoApple.amountGrams ∧
    demoApple.computedNutrients.fat = specScale demoApple.nutrientsPer100g.fat demoApple.amountGrams ∧
    demoApple.computedNutrients.carbs = specScale demoApple.nutrientsPer100g.carbs demoApple.amountGrams ∧
    demoApple.computedNutrients.sugar = specScale demoApple.nutrientsPer100g.sugar demoApple.amountGrams ∧
    demoApple.computedNutrients.fiber = specScale demoApple.nutrientsPer100g.fiber demoApple.amountGrams :=
  spec_scaling_per_item demoLookup demoItems demoResult (by decide) demoApple (by decide)

/-! ## Claim C2 -/

/-- C2: each of the six total fields is the sum of that field over the
already-rounded per-item computed values of all calculated items
(zero-valued not-found items included), rounded once more with the
same convention; totals never touch the unrounded per-100g values. -/
theorem spec_totals_from_rounded_items (lookup : String → LookupOutcome)
    (items : List MealItem) (r : CalcResult)
    (h : handleCalculateNutrients lookup items = .ok r) :
    r.totalNutrients.calories =
      round1 ((r.results.map (fun c => c.computedNutrients.calories)).sum) ∧
    r.totalNutrients.protein =
      round1 ((r.results.map (fun c => c.computedNutrients.protein)).sum) ∧
    r.totalNutrients.fat =
      round1 ((r.results.map (fun c => c.computedNutrients.fat)).sum) ∧
    r.totalNutrients.carbs =
      round1 ((r.results.map (fun c => c.computedNutrients.carbs)).sum) ∧
    r.totalNutrients.sugar =
      round1 ((r.results.map (fun c => c.computedNutrients.sugar)).sum) ∧
    r.totalNutrients.fiber =
      round1 ((r.results.map (fun c => c.computedNutrients.fiber)).sum) :=
  ⟨handle_totals_field lookup items r h (fun a => a.calories) (fun _ => rfl) sumNutrients_calories,
   handle_totals_field lookup items r h (fun a => a.protein) (fun _ => rfl) sumNutrients_protein,
   handle_totals_field lookup items r h (fun a => a.fat) (fun _ => rfl) sumNutrients_fat,
   handle_totals_field lookup items r h (fun a => a.carbs) (fun _ => rfl) sumNutrients_carbs,
   handle_totals_field lookup items r h (fun a => a.sugar) (fun _ => rfl) sumNutrients_sugar,
   handle_totals_field lookup items r h (fun a => a.fiber) (fun _ => rfl) sumNutrients_fiber⟩

/-- Witness for C2 at the sample batch: 78.0 + 84.0 rounds to 162.0
and 0 + 7.0 rounds to 7.0. -/
theorem spec_totals_from_rounded_items_witness :
    demoResult.totalNutrients.calories =
      round1 ((demoResult.results.map (fun c => c.computedNutrients.calories)).sum) ∧
    demoResult.totalNutrients.protein =
      round1 ((demoResult.results.map (fun c => c.computedNutrients.protein)).sum) ∧
    demoResult.totalNutrients.fat =
      round1 ((demoResult.results.map (fun c => c.computedNutrients.fat)).sum) ∧
    demoResult.totalNutrients.carbs =
      round1 ((demoResult.results.map (fun c => c.computedNutrients.carbs)).sum) ∧
    demoResult.totalNutrients.sugar =
      round1 ((demoResult.results.map (fun c => c.computedNutrients.sugar)).sum) ∧
    demoResult.totalNutrients.fiber =
      round1 ((demoResult.results.map (fun c => c.computedNutrients.fiber)).sum) :=
  spec_totals_from_rounded_items demoLookup demoItems demoResult (by decide)

/-! ## Claim C9 -/

/-- C9: the rounded totals do not depend on the order of the batch:
any permutation of the items that also produces a result produces the
same total for every nutrient field. -/
theorem spec_totals_perm_invariant (lookup : String → LookupOutcome)
    (items1 items2 : List MealItem) (hp : items1.Perm items2)
    (r1 r2 : CalcResult)
    (h1 : handleCalculateNutrients lookup items1 = .ok r1)
    (h2 : handleCalculateNutrients lookup items2 = .ok r2) :
    r1.totalNutrients = r2.totalNutrients := by
  obtain ⟨_, ht1⟩ := handle_ok_shape lookup items1 r1 h1
  obtain ⟨_, ht2⟩ := handle_ok_shape lookup items2 r2 h2
  rw [ht1, ht2,
    sumNutrients_perm _ _ ((hp.filter isValidItem).map (itemComputed lookup))]

/-- Witness for C9: the apple-milk batch and the milk-apple batch
yield the same totals. -/
theorem spec_totals_perm_invariant_witness :
    demoResult.totalNutrients = demoResultSwapped.totalNutrients :=
  spec_totals_perm_invariant demoLookup demoItems demoItemsSwapped
    (by
      show ([⟨1, "apple", "150"⟩, ⟨2, "milk", "200"⟩] : List MealItem).Perm
        [⟨2, "milk", "200"⟩, ⟨1, "apple", "150"⟩]
      exact List.Perm.swap _ _ _)
    demoResult demoResultSwapped (by decide) (by decide)

theorem sum_eraseIdx_get? (l : List ℚ) (k : ℕ) (x : ℚ) (hx : l.get? k = some x) :
    l.sum = (l.eraseIdx k).sum + x := by
  induction l generalizing k with
  | nil => simp at hx
  | cons a t ih =>
    cases k with
    | zero =>
      simp only [List.get?] at hx
      cases hx
      simp [List.eraseIdx, add_comm]
    | succ n =>
      simp only [List.get?] at hx
      simp only [List.eraseIdx, List.sum_cons, ih n hx]
      ring

/-! ## Claim C3 -/

/-- C3 counterexample: the P4 batch with a blank first name and a
negative gram amount on the second item is not rejected; the code does
not test positivity, parseFloat accepts -5, and the batch produces a
result. -/
theorem spec_invalid_filter_cex :
    handleCalculateNutrients emptyLookup p4Items ≠ Except.error CalcError.invalidInput := by
  decide

/-- C3 amended: an item is kept exactly when its trimmed food name is
non-blank, its trimmed gram text is non-blank, and parseFloat accepts
the gram text (no positivity test); the aggregation fails with
InvalidInput, producing nothing else, exactly when every item is
dropped by that filter. -/
theorem spec_invalid_filter_amended (lookup : String → LookupOutcome)
    (items : List MealItem) :
    handleCalculateNutrients lookup items = Except.error CalcError.invalidInput ↔
      ∀ i ∈ items, jsTrim i.foodName = "" ∨ jsTrim i.amountGrams = "" ∨
        parseFloat i.amountGrams = none := by
  constructor
  · intro h
    by_cases hv : (items.filter isValidItem).isEmpty
    · have hnil : items.filter isValidItem = [] := by simpa using hv
      intro i hi
      have hni : ¬ (isValidItem i = true) := by
        intro hvalid
        have hmem : i ∈ items.filter isValidItem := List.mem_filter.mpr ⟨hi, hvalid⟩
        rw [hnil] at hmem
        simp at hmem
      by_contra hcon
      push_neg at hcon
      obtain ⟨h1, h2, h3⟩ := hcon
      exact hni (by
        simp [isValidItem, bne_iff_ne, Option.isSome_iff_ne_none, h1, h2, h3])
    · exfalso
      simp only [handleCalculateNutrients] at h
      rw [if_neg hv] at h
      cases hc : calcLoop lookup (items.filter isValidItem) zeroNutrients with
      | error e => rw [hc] at h; simp at h
      | ok p => rw [hc] at h; simp at h
  · intro hall
    have hnil : items.filter isValidItem = [] := by
      apply List.filter_eq_nil_iff.mpr
      intro a ha hvalid
      have hv3 : jsTrim a.foodName ≠ "" ∧ jsTrim a.amountGrams ≠ "" ∧
          parseFloat a.amountGrams ≠ none := by
        simpa [isValidItem, bne_iff_ne, Option.isSome_iff_ne_none, and_assoc] using hvalid
      rcases hall a ha with h1 | h2 | h3
      · exact hv3.1 h1
      · exact hv3.2.1 h2
      · exact hv3.2.2 h3
    simp [handleCalculateNutrients, hnil]

/-! ## Claim C4 -/

/-- C4: when one item of a successful batch resolves to no candidate,
the calculated output still holds an entry at that position, named
with the not-found suffix, with the requested gram amount and all six
nutrients zero, the output has one entry per valid item, and every
total field is the rounded sum over the remaining entries only. -/
theorem spec_not_found_degrades (lookup : String → LookupOutcome)
    (items : List MealItem) (r : CalcResult) (k : ℕ) (item : MealItem)
    (h : handleCalculateNutrients lookup items = .ok r)
    (hk : (items.filter isValidItem).get? k = some item)
    (hnf : itemUnmatched lookup item = true) :
    r.results.length = (items.filter isValidItem).length ∧
    r.results.get? k = some
      { foodName := item.foodName ++ " (not found)"
        amountGrams := (parseFloat item.amountGrams).getD 0
        nutrientsPer100g := zeroNutrients
        computedNutrients := zeroNutrients } ∧
    r.totalNutrients.calories =
      round1 (((r.results.eraseIdx k).map (fun c => c.computedNutrients.calories)).sum) ∧
    r.totalNutrients.protein =
      round1 (((r.results.eraseIdx k).map (fun c => c.computedNutrients.protein)).sum) ∧
    r.totalNutrients.fat =
      round1 (((r.results.eraseIdx k).map (fun c => c.computedNutrients.fat)).sum) ∧
    r.totalNutrients.carbs =
      round1 (((r.results.eraseIdx k).map (fun c => c.computedNutrients.carbs)).sum) ∧
    r.totalNutrients.sugar =
      round1 (((r.results.eraseIdx k).map (fun c => c.computedNutrients.sugar)).sum) ∧
    r.totalNutrients.fiber =
      round1 (((r.results.eraseIdx k).map (fun c => c.computedNutrients.fiber)).sum) := by
  obtain ⟨hres, htot⟩ := handle_ok_shape lookup items r h
  have hnfe : resolveOkItem lookup item = notFoundEntry item := by
    cases hl : lookup item.foodName with
    | failure => simp [itemUnmatched, hl] at hnf
    | success foods =>
      have hsel : selectFood item.foodName foods = none := by
        simpa [itemUnmatched, hl, Option.isNone_iff_eq_none] using hnf
      simp [resolveOkItem, hl, hsel]
  have hget : r.results.get? k = some (notFoundEntry item) := by
    rw [hres, List.get?_map, hk, Option.map_some']
    rw [hnfe]
  have hfield : ∀ (proj : NutrientValues → ℚ),
      (∀ a, proj (roundNutrients a) = round1 (proj a)) →
      (∀ l, proj (sumNutrients l) = (l.map proj).sum) →
      proj zeroNutrients = 0 →
      proj r.totalNutrients =
        round1 (((r.results.eraseIdx k).map (fun c => proj c.computedNutrients)).sum) := by
    intro proj hround hsum hz
    rw [handle_totals_field lookup items r h proj hround hsum]
    congr 1
    have hgetm : (r.results.map (fun c => proj c.computedNutrients)).get? k = some 0 := by
      rw [List.get?_map, hget, Option.map_some']
      simp [notFoundEntry, hz]
    rw [sum_eraseIdx_get? _ k 0 hgetm, add_zero, map_eraseIdx]
  refine ⟨by rw [hres]; simp, by rw [hget]; rfl,
    hfield (fun a => a.calories) (fun _ => rfl) sumNutrients_calories rfl,
    hfield (fun a => a.protein) (fun _ => rfl) sumNutrients_protein rfl,
    hfield (fun a => a.fat) (fun _ => rfl) sumNutrients_fat rfl,
    hfield (fun a => a.carbs) (fun _ => rfl) sumNutrients_carbs rfl,
    hfield (fun a => a.sugar) (fun _ => rfl) sumNutrients_sugar rfl,
    hfield (fun a => a.fiber) (fun _ => rfl) sumNutrients_fiber rfl⟩

/-- Witness for C4: in the apple-zzz-milk batch the middle item finds
no candidate, the output still has three entries, the middle one is
the zero-valued not-found entry, and the totals come from apple and
milk alone. -/
theorem spec_not_found_degrades_witness :
    demoResultNF.results.length = (demoItemsNF.filter isValidItem).length ∧
    demoResultNF.results.get? 1 = some
      { foodName := "zzz" ++ " (not found)"
        amountGrams := (parseFloat "50").getD 0
        nutrientsPer100g := zeroNutrients
        computedNutrients := zeroNutrients } ∧
    demoResultNF.totalNutrients.calories =
      round1 (((demoResultNF.results.eraseIdx 1).map (fun c => c.computedNutrients.calories)).sum) ∧
    demoResultNF.totalNutrients.protein =
      round1 (((demoResultNF.results.eraseIdx 1).map (fun c => c.computedNutrients.protein)).sum) ∧
    demoResultNF.totalNutrients.fat =
      round1 (((demoResultNF.results.eraseIdx 1).map (fun c => c.computedNutrients.fat)).sum) ∧
    demoResultNF.totalNutrients.carbs =
      round1 (((demoResultNF.results.eraseIdx 1).map (fun c => c.computedNutrients.carbs)).sum) ∧
    demoResultNF.totalNutrients.sugar =
      round1 (((demoResultNF.results.eraseIdx 1).map (fun c => c.computedNutrients.sugar)).sum) ∧
    demoResultNF.totalNutrients.fiber =
      round1 (((demoResultNF.results.eraseIdx 1).map (fun c => c.computedNutrients.fiber)).sum) :=
  spec_not_found_degrades demoLookup demoItemsNF demoResultNF 1 ⟨2, "zzz", "50"⟩
    (by decide) (by decide) (by decide)

/-! ## Claim C5 -/

/-- C5 counterexample: a thrown lookup for the single item milk aborts
the whole batch with the calculation error, so no result is produced
even though the other item resolves; InvalidInput is therefore not the
only condition that prevents a result. -/
theorem spec_lookup_failure_cex :
    handleCalculateNutrients failingLookup failingItems =
      Except.error CalcError.calculationError := by
  decide

/-- C5 amended: a batch produces a result exactly when at least one
item survives the filter and no surviving item has a throwing lookup;
a lookup that completes (even with an empty candidate list, which is
what a non-success status with a JSON body yields) never prevents the
result, while a thrown fetch or parse error on any single item aborts
the whole batch. -/
theorem spec_result_exists_iff (lookup : String → LookupOutcome)
    (items : List MealItem) :
    (∃ r, handleCalculateNutrients lookup items = Except.ok r) ↔
      (items.filter isValidItem ≠ [] ∧
        ∀ i ∈ items.filter isValidItem, lookup i.foodName ≠ LookupOutcome.failure) := by
  constructor
  · rintro ⟨r, h⟩
    by_cases hv : (items.filter isValidItem).isEmpty
    · exfalso
      simp only [handleCalculateNutrients] at h
      rw [if_pos hv] at h
      simp at h
    · refine ⟨by simpa using hv, ?_⟩
      by_cases hf : ∀ i ∈ items.filter isValidItem, lookup i.foodName ≠ LookupOutcome.failure
      · exact hf
      · exfalso
        push_neg at hf
        simp only [handleCalculateNutrients] at h
        rw [if_neg hv, calcLoop_err lookup _ hf zeroNutrients] at h
        simp at h
  · rintro ⟨hne, hf⟩
    have hv : ¬ ((items.filter isValidItem).isEmpty = true) := by simpa using hne
    cases hc : handleCalculateNutrients lookup items with
    | ok r => exact ⟨r, rfl⟩
    | error e =>
      exfalso
      simp only [handleCalculateNutrients] at hc
      rw [if_neg hv, calcLoop_ok lookup _ hf zeroNutrients] at hc
      simp at hc

/-! ## Claim C6 -/

/-- C6: the resolver picks the first candidate in source order whose
description contains the lowercased query case-insensitively, falls
back to the first candidate at all when none matches, and yields none
(NotFound) when the source returns zero candidates. -/
theorem spec_resolver_first_match (query : String) (foods : List USDAFood) :
    selectFood query foods =
      ((foods.find? (fun f => descContains f (jsToLower query))).or foods.head?) := by
  rw [selectFood_eq_head_or, find?_eq_head?_filter]

/-! ## Claim C7 -/

/-- C7: each of the six fields of the extracted per-100g record comes
from an exact-name scan of the candidate nutrient list with the fixed
USDA names, and a missing nutrient or an absent list contributes 0
rather than an error, so the record always carries all six fields. -/
theorem spec_nutrient_extraction (food : USDAFood) :
    extractPer100g food =
      { calories := specNutrientLookup food "Energy"
        protein := specNutrientLookup food "Protein"
        fat := specNutrientLookup food "Total lipid (fat)"
        carbs := specNutrientLookup food "Carbohydrate, by difference"
        sugar := specNutrientLookup food "Total Sugars"
        fiber := specNutrientLookup food "Fiber, total dietary" } := by
  have h : ∀ name, (getNutrient food name).getD 0 = specNutrientLookup food name := by
    intro name
    rw [getNutrient, specNutrientLookup]
    cases food.foodNutrients with
    | none => rfl
    | some ns =>
      cases h2 : ns.find? (fun item => item.nutrientName == name) <;> simp [h2]
  simp only [extractPer100g, h]

/-! ## Claim C8 -/

/-- C8: saving prepends the new entry (newest first) and truncates the
stored collection to the 20 most recent entries; in particular a save
against a 20-entry history keeps exactly 20 entries, drops the last
(oldest) stored entry, and puts the new entry first. -/
theorem spec_history_cap (parseJson : String → Option (List CalculatorHistoryItem))
    (ts : String) (results : List CalculatedItem) (totals : NutrientValues)
    (s : String) (history : List CalculatorHistoryItem)
    (hs : (s == "") = false) (hp : parseJson s = some history) :
    saveCalculationToHistory true parseJson ts results totals (some s) =
      some ((mkHistoryEntry ts results totals :: history).take 20) ∧
    (history.length = 20 →
      (mkHistoryEntry ts results totals :: history).take 20 =
        mkHistoryEntry ts results totals :: history.dropLast ∧
      ((mkHistoryEntry ts results totals :: history).take 20).length = 20) := by
  constructor
  · simp [saveCalculationToHistory, hs, hp]
  · intro h20
    constructor
    · show (mkHistoryEntry ts results totals :: history).take (19 + 1) =
        mkHistoryEntry ts results totals :: history.dropLast
      rw [List.take_succ_cons, List.dropLast_eq_take, h20]
    · rw [List.length_take, List.length_cons, h20]
      norm_num

/-- Witness for C8: against the stored 20-entry sample history the
save keeps 20 entries, drops the oldest, and places the new entry
first. -/
theorem spec_history_cap_witness :
    saveCalculationToHistory true demoParse "now" [] zeroNutrients (some "good") =
      some ((mkHistoryEntry "now" [] zeroNutrients :: demoHist20).take 20) ∧
    (demoHist20.length = 20 →
      (mkHistoryEntry "now" [] zeroNutrients :: demoHist20).take 20 =
        mkHistoryEntry "now" [] zeroNutrients :: demoHist20.dropLast ∧
      ((mkHistoryEntry "now" [] zeroNutrients :: demoHist20).take 20).length = 20) :=
  spec_history_cap demoParse "now" [] zeroNutrients "good" demoHist20
    (by decide) (by decide)

/-! ## Claim C10 -/

/-- C10: when the stored history text fails to parse, the save quietly
starts over: the written collection holds exactly the new entry, and
the operation always completes. -/
theorem spec_corrupt_history_reset (parseJson : String → Option (List CalculatorHistoryItem))
    (ts : String) (results : List CalculatedItem) (totals : NutrientValues)
    (s : String) (hbad : parseJson s = none) :
    saveCalculationToHistory true parseJson ts results totals (some s) =
      some [mkHistoryEntry ts results totals] := by
  by_cases hs : (s == "") = true
  · simp [saveCalculationToHistory, hs]
  · simp [saveCalculationToHistory, hs, hbad]

/-- Witness for C10: the text corrupt fails to parse and the save
stores exactly the new entry. -/
theorem spec_corrupt_history_reset_witness :
    saveCalculationToHistory true demoParse "now" [] zeroNutrients (some "corrupt") =
      some [mkHistoryEntry "now" [] zeroNutrients] :=
  spec_corrupt_history_reset demoParse "now" [] zeroNutrients "corrupt" (by decide)
